import Mathlib

/-!
Shallow embedding of `cloudinit/sources/helpers/vultr.py` (Vultr metadata
helper of cloud-init) and proofs about it.

Python dictionaries with optional keys are embedded as structures with
`Option` fields; raised exceptions are embedded as `Except` errors; the
external collaborators (DMI reads, kernel command line, route-table query,
routing-tool availability, DHCP sessions, HTTP responses, the MAC-to-name
interface map) are passed in explicitly as parameters.
-/

namespace VultrHelper

/-- Python exceptions raised (directly or via dict lookups / `%` formatting)
by the module. `keyError k` is a `KeyError` on key `k`; `typeError` is the
`TypeError` raised by `%`-formatting a multi-placeholder format string with
a single argument; `runtimeError2` is a `RuntimeError` built from two
arguments. `noDHCPLease` and `processExecution` stand for the two exception
classes caught by the orchestrator loop. -/
inductive PyErr where
  | runtimeError (msg : String)
  | runtimeError2 (a b : String)
  | typeError (msg : String)
  | keyError (key : String)
  | noDHCPLease (msg : String)
  | processExecution (msg : String)
  deriving DecidableEq, Repr

/-- Split a format string at its `%s` placeholders (none of the format
strings of this module use any other conversion or `%%`). -/
def fmtParts : List Char → List (List Char)
  | [] => [[]]
  | '%' :: 's' :: rest => [] :: fmtParts rest
  | c :: rest =>
    match fmtParts rest with
    | [] => [[c]]
    | p :: ps => (c :: p) :: ps

/-- Python `fmt % arg` for a single (non-tuple) string argument `arg`:
succeeds exactly when `fmt` holds exactly one `%s` placeholder, and raises
`TypeError` otherwise (too few arguments for several placeholders, or
unconverted arguments for none). -/
def pyFormatStr (fmt arg : String) : Except PyErr String :=
  match fmtParts fmt.toList with
  | [pre, post] => .ok (String.mk pre ++ arg ++ String.mk post)
  | [_] =>
    .error (.typeError "not all arguments converted during string formatting")
  | _ => .error (.typeError "not enough arguments for format string")

/-- Python `str.split()` with no separator: split on runs of whitespace,
discarding empty pieces. Auxiliary recursion; `cur` is the current word,
reversed. -/
def pySplitAux (cur : List Char) : List Char → List String
  | [] => if cur.isEmpty then [] else [String.mk cur.reverse]
  | c :: rest =>
    if c.isWhitespace then
      if cur.isEmpty then pySplitAux [] rest
      else String.mk cur.reverse :: pySplitAux [] rest
    else pySplitAux (c :: cur) rest

/-- Python `s.split()` (whitespace tokenization, no empty tokens). -/
def pySplitWs (s : String) : List String :=
  pySplitAux [] s.toList

/-- `is_vultr()`: the DMI `system-manufacturer` value (`none` when DMI is
unavailable) and the kernel command line are the two collaborator inputs. -/
def is_vultr (manufacturer : Option String) (cmdline : String) : Bool :=
  if manufacturer == some "Vultr" then
    true
  else if (pySplitWs cmdline).contains "vultr" then
    true
  else
    false

/-- `is_baremetal()`: manufacturer differing from `"Vultr"`. -/
def is_baremetal (manufacturer : Option String) : Bool :=
  if manufacturer != some "Vultr" then true else false

/-- One IPv4 route of `netinfo.route_info()["ipv4"]`; the module reads only
its `"destination"` entry. -/
structure Route4 where
  destination : String
  deriving DecidableEq, Repr

/-- Collaborator state seen by `set_route`: the `"ipv4"` entry of the route
table (absent when no tooling exists), and which of the two routing tools
`subp.which` finds. -/
structure RouteEnv where
  ipv4 : Option (List Route4)
  has_ip : Bool
  has_route : Bool
  deriving DecidableEq, Repr

/-- An external route-mutation command issued through `subp.subp`. -/
inductive RouteCmd where
  | ipRouteAdd (dest dev : String)
  | routeAdd (net gw : String)
  deriving DecidableEq, Repr

/-- `set_route(iface)`: returns the list of route-mutation commands issued
(the code issues zero or one). -/
def set_route (env : RouteEnv) (iface : String) : List RouteCmd :=
  match env.ipv4 with
  | none => []
  | some routes =>
    let dests := routes.map (fun r => r.destination)
    let gw_present :=
      dests.contains "100.64.0.0" || dests.contains "100.64.0.0/10"
    let dest_present := dests.contains "169.254.169.254"
    if !gw_present || dest_present then []
    else if env.has_ip then
      [.ipRouteAdd "169.254.169.254/32" iface]
    else if env.has_route then
      [.routeAdd "169.254.169.254/32" "100.64.0.1"]
    else []

/-- The final HTTP response handed back by `url_helper.readurl`. -/
structure MetaResponse where
  ok : Bool
  code : Nat
  contents : String
  deriving DecidableEq, Repr

/-- `read_metadata(url, ...)`: appends `/v1.json` to the base URL and, on a
non-success response, evaluates
`"Failed to connect to %s: Code: %s" % url` — a two-placeholder format
applied to a single argument — before the intended `RuntimeError` could be
built. Timeout/retry mechanics live in the HTTP collaborator, which hands
back the final `response`. -/
def read_metadata (url : String) (response : MetaResponse) :
    Except PyErr String :=
  match pyFormatStr "%s/v1.json" url with
  | .error e => .error e
  | .ok url =>
    if response.ok then
      .ok response.contents
    else
      match pyFormatStr "Failed to connect to %s: Code: %s" url with
      | .error e => .error e
      | .ok msg => .error (.runtimeError2 msg (toString response.code))

/-- A route spec carried in metadata; copied verbatim into the produced
config, never inspected, so its single field is opaque text. -/
structure RouteSpec where
  spec : String
  deriving DecidableEq, Repr

/-- One entry of `ipv4.additional` / `ipv6.additional`: `address` and
`netmask` are read unconditionally, `routes` only when present. -/
structure AdditionalEntry where
  address : String
  netmask : String
  routes : Option (List RouteSpec)
  deriving DecidableEq, Repr

/-- The dict under an interface's `"ipv4"` key; every sub-key may be absent
from the raw JSON dict. -/
structure IPv4Block where
  address : Option String
  netmask : Option String
  additional : Option (List AdditionalEntry)
  deriving DecidableEq, Repr

/-- The dict under an interface's `"ipv6"` key; the module reads only its
`"additional"` entry. -/
structure IPv6Block where
  additional : Option (List AdditionalEntry)
  deriving DecidableEq, Repr

/-- One interface-metadata record. `mac` is always read; all other keys are
guarded by membership tests or raise `KeyError` when looked up while
absent. -/
structure InterfaceMeta where
  mac : String
  mtu : Option Nat
  accept_ra : Option Nat
  routes : Option (List RouteSpec)
  ipv4 : Option IPv4Block
  ipv6 : Option IPv6Block
  deriving DecidableEq, Repr

/-- A subnet dict of a produced physical stanza. `type` is one of
`"dhcp"`, `"ipv6_slaac"`, `"static"`, `"static6"`; `address`/`netmask`/
`routes` are present only for the variants that set them. -/
structure Subnet where
  type : String
  control : String
  address : Option String
  netmask : Option String
  routes : Option (List RouteSpec)
  deriving DecidableEq, Repr

/-- A produced physical-interface stanza (`"type": "physical"`).
`accept_ra` models the `"accept-ra"` key: always set (default 1) on public
stanzas, set only when the metadata carries it on private stanzas. -/
structure PhysCfg where
  name : String
  mac_address : String
  accept_ra : Option Nat
  mtu : Option Nat
  subnets : List Subnet
  deriving DecidableEq, Repr

/-- A stanza of the produced network config document. -/
inductive Stanza where
  | nameserver (address : List String)
  | physical (cfg : PhysCfg)
  deriving DecidableEq, Repr

/-- The produced network config document. -/
structure NetworkConfig where
  version : Nat
  config : List Stanza
  deriving DecidableEq, Repr

/-- `get_interface_name(mac)`: look the MAC up in the (cached) system
MAC-to-name map, passed in as `resolve`. -/
def get_interface_name (resolve : String → Option String) (mac : String) :
    Option String :=
  resolve mac

/-- Python truthiness of the resolver result: `None` and the empty string
are falsy, so both fail the `if not interface_name` guard. -/
def truthyName : Option String → Bool
  | none => false
  | some s => !(s == "")

/-- The `RuntimeError` raised when a metadata MAC is not found on the
system (`"Interface: %s could not be found on the system" % mac`, a
one-placeholder format that succeeds). -/
def unresolvedInterfaceError (mac : String) : PyErr :=
  .runtimeError ("Interface: " ++ mac ++ " could not be found on the system")

/-- `netcfg["subnets"][0]["routes"] = rs` on a non-empty subnet list. -/
def setHeadRoutes (subnets : List Subnet) (rs : List RouteSpec) :
    List Subnet :=
  match subnets with
  | [] => []
  | s :: t => { s with routes := some rs } :: t

/-- The `static`/`static6` subnet built from one `additional` entry (the
`routes` key is copied iff present). -/
def additionalSubnet (ty : String) (a : AdditionalEntry) : Subnet :=
  { type := ty, control := "auto", address := some a.address,
    netmask := some a.netmask, routes := a.routes }

/-- `generate_public_network_interface(interface)`. -/
def generate_public_network_interface (resolve : String → Option String)
    (interface : InterfaceMeta) : Except PyErr PhysCfg :=
  let interface_name := get_interface_name resolve interface.mac
  if !truthyName interface_name then
    .error (unresolvedInterfaceError interface.mac)
  else
    match interface_name with
    | none => .error (unresolvedInterfaceError interface.mac)
    | some nm =>
      let netcfg : PhysCfg :=
        { name := nm, mac_address := interface.mac, accept_ra := some 1,
          mtu := none,
          subnets :=
            [{ type := "dhcp", control := "auto", address := none,
               netmask := none, routes := none },
             { type := "ipv6_slaac", control := "auto", address := none,
               netmask := none, routes := none }] }
      let netcfg := match interface.mtu with
        | some m => { netcfg with mtu := some m }
        | none => netcfg
      let netcfg := match interface.accept_ra with
        | some ra => { netcfg with accept_ra := some ra }
        | none => netcfg
      let netcfg := match interface.routes with
        | some rs => { netcfg with subnets := setHeadRoutes netcfg.subnets rs }
        | none => netcfg
      match interface.ipv4 with
      | none => .error (.keyError "ipv4")
      | some ipv4 =>
        match ipv4.additional with
        | none => .error (.keyError "additional")
        | some v4add =>
          let additional_count := v4add.length
          let netcfg :=
            if interface.ipv4.isSome && additional_count > 0 then
              { netcfg with subnets :=
                  netcfg.subnets ++ v4add.map (additionalSubnet "static") }
            else netcfg
          match interface.ipv6 with
          | none => .error (.keyError "ipv6")
          | some ipv6 =>
            match ipv6.additional with
            | none => .error (.keyError "additional")
            | some v6add =>
              let additional_count := v6add.length
              let netcfg :=
                if interface.ipv6.isSome && additional_count > 0 then
                  { netcfg with subnets :=
                      netcfg.subnets ++ v6add.map (additionalSubnet "static6") }
                else netcfg
              .ok netcfg

/-- `generate_private_network_interface(interface)`. -/
def generate_private_network_interface (resolve : String → Option String)
    (interface : InterfaceMeta) : Except PyErr PhysCfg :=
  let interface_name := get_interface_name resolve interface.mac
  if !truthyName interface_name then
    .error (unresolvedInterfaceError interface.mac)
  else
    match interface_name with
    | none => .error (unresolvedInterfaceError interface.mac)
    | some nm =>
      match interface.ipv4 with
      | none => .error (.keyError "ipv4")
      | some ipv4 =>
        match ipv4.address with
        | none => .error (.keyError "address")
        | some addr =>
          match ipv4.netmask with
          | none => .error (.keyError "netmask")
          | some mask =>
            let netcfg : PhysCfg :=
              { name := nm, mac_address := interface.mac,
                accept_ra := none, mtu := none,
                subnets :=
                  [{ type := "static", control := "auto",
                     address := some addr, netmask := some mask,
                     routes := none }] }
            let netcfg := match interface.mtu with
              | some m => { netcfg with mtu := some m }
              | none => netcfg
            let netcfg := match interface.accept_ra with
              | some ra => { netcfg with accept_ra := some ra }
              | none => netcfg
            let netcfg := match interface.routes with
              | some rs =>
                { netcfg with subnets := setHeadRoutes netcfg.subnets rs }
              | none => netcfg
            .ok netcfg

/-- `generate_network_config(interfaces)`: nameserver stanza, then the
public stanza from element 0 (when any), then one private stanza per
element at index ≥ 1, in order; the first raised exception aborts the
whole document. -/
def generate_network_config (resolve : String → Option String)
    (interfaces : List InterfaceMeta) : Except PyErr NetworkConfig :=
  match interfaces with
  | [] => .ok { version := 1, config := [.nameserver ["108.61.10.10"]] }
  | first :: rest =>
    match generate_public_network_interface resolve first with
    | .error e => .error e
    | .ok pub =>
      match rest.mapM (generate_private_network_interface resolve) with
      | .error e => .error e
      | .ok privs =>
        .ok { version := 1,
              config := .nameserver ["108.61.10.10"] :: .physical pub ::
                privs.map .physical }

/-- `sub` occurs at the start of `s` (on character lists). -/
def startsWithChars : List Char → List Char → Bool
  | _, [] => true
  | [], _ :: _ => false
  | a :: as, b :: bs => a == b && startsWithChars as bs

/-- `sub` occurs somewhere in `s` (on character lists): Python's
`sub in s` on strings. -/
def hasSubChars (sub : List Char) : List Char → Bool
  | [] => startsWithChars [] sub
  | c :: t => startsWithChars (c :: t) sub || hasSubChars sub t

/-- Python `sub in s` for strings. -/
def containsSubstr (s sub : String) : Bool :=
  hasSubChars sub.toList s.toList

/-- The per-interface skip test of the orchestrator loop:
`"dummy" in iface[0]` or `"lo" == iface[0]`. -/
def skippedIface (name : String) : Bool :=
  containsSubstr name "dummy" || name == "lo"

/-- Outcome of one per-interface attempt (ephemeral DHCP session, route
setup, metadata fetch and JSON parse), as seen by the orchestrator's
`try`/`except` block: `success doc` is a fetched-and-parsed document;
`recoverable e` is a raised `NoDHCPLeaseError` or
`subp.ProcessExecutionError` (the two caught classes); `fatal e` is any
other exception raised inside the `with` block (e.g. the fetcher's
formatting `TypeError`), which propagates uncaught. -/
inductive Attempt where
  | success (doc : String)
  | recoverable (e : PyErr)
  | fatal (e : PyErr)
  deriving DecidableEq, Repr

/-- The loop of `get_metadata`, threading the last recorded exception. -/
def get_metadata_loop (exc : PyErr) :
    List (String × Attempt) → Except PyErr String
  | [] => .error exc
  | (name, att) :: rest =>
    if skippedIface name then get_metadata_loop exc rest
    else
      match att with
      | .success doc => .ok doc
      | .recoverable e => get_metadata_loop e rest
      | .fatal e => .error e

/-- `get_metadata(...)` for one fixed parameter tuple: `attempts` pairs
each enumerated interface name (in `net.get_interfaces()` order) with the
outcome its attempt would have. -/
def get_metadata (attempts : List (String × Attempt)) :
    Except PyErr String :=
  get_metadata_loop (.runtimeError "Failed to DHCP") attempts

/-- The parameter tuple `(url, timeout, retries, sec_between, agent)` that
keys the `lru_cache` on `get_metadata`. -/
abbrev Params := String × Nat × Nat × Nat × String

/-- The memo state of `functools.lru_cache` around `get_metadata`: cached
successful results keyed by exact parameter tuple, plus a counter of how
many times the wrapped (uncached) body actually ran. -/
structure CacheSt where
  cache : List (Params × String)
  count : Nat
  deriving DecidableEq, Repr

/-- One call of the `lru_cache`-wrapped `get_metadata`: a cache hit
returns the memoized document without running the body; a miss runs the
body (counted), and memoizes the result only when no exception is
raised. -/
def get_metadata_cached (attempts : List (String × Attempt))
    (p : Params) (st : CacheSt) : Except PyErr String × CacheSt :=
  match st.cache.lookup p with
  | some v => (.ok v, st)
  | none =>
    match get_metadata attempts with
    | .ok v => (.ok v, { cache := (p, v) :: st.cache, count := st.count + 1 })
    | .error e => (.error e, { cache := st.cache, count := st.count + 1 })

/-- The shape §3 of the spec requires of an interface-metadata record:
`ipv4` present with `address`, `netmask` and `additional`, and `ipv6`
present with `additional`. -/
def wellFormed (i : InterfaceMeta) : Bool :=
  (match i.ipv4 with
   | some b => b.address.isSome && b.netmask.isSome && b.additional.isSome
   | none => false) &&
  (match i.ipv6 with
   | some c => c.additional.isSome
   | none => false)

lemma truthyName_iff (o : Option String) :
    truthyName o = true ↔ ∃ nm, o = some nm ∧ nm ≠ "" := by
  cases o <;> simp [truthyName]

lemma generate_public_ok_of (resolve : String → Option String)
    (i : InterfaceMeta) (nm : String) (b : IPv4Block)
    (v4 : List AdditionalEntry) (c : IPv6Block) (v6 : List AdditionalEntry)
    (hres : resolve i.mac = some nm) (hnm : nm ≠ "")
    (h4 : i.ipv4 = some b) (h4a : b.additional = some v4)
    (h6 : i.ipv6 = some c) (h6a : c.additional = some v6) :
    generate_public_network_interface resolve i =
      .ok { name := nm, mac_address := i.mac,
            accept_ra := some (i.accept_ra.getD 1), mtu := i.mtu,
            subnets :=
              { type := "dhcp", control := "auto", address := none,
                netmask := none, routes := i.routes } ::
              { type := "ipv6_slaac", control := "auto", address := none,
                netmask := none, routes := none } ::
              (v4.map (additionalSubnet "static") ++
                v6.map (additionalSubnet "static6")) } := by
  rcases i with ⟨mac, mtu, ara, rts, i4, i6⟩
  simp only at hres h4 h6
  subst h4 h6
  cases mtu <;> cases ara <;> cases rts <;> cases v4 <;> cases v6 <;>
    simp [generate_public_network_interface, get_interface_name, truthyName,
      hres, hnm, h4a, h6a, setHeadRoutes, additionalSubnet]

lemma generate_private_ok_of (resolve : String → Option String)
    (i : InterfaceMeta) (nm : String) (b : IPv4Block)
    (addr mask : String)
    (hres : resolve i.mac = some nm) (hnm : nm ≠ "")
    (h4 : i.ipv4 = some b) (ha : b.address = some addr)
    (hm : b.netmask = some mask) :
    generate_private_network_interface resolve i =
      .ok { name := nm, mac_address := i.mac, accept_ra := i.accept_ra,
            mtu := i.mtu,
            subnets :=
              [{ type := "static", control := "auto", address := some addr,
                 netmask := some mask, routes := i.routes }] } := by
  rcases i with ⟨mac, mtu, ara, rts, i4, i6⟩
  simp only at hres h4
  subst h4
  rcases b with ⟨baddr, bmask, badd⟩
  simp only at ha hm
  subst ha hm
  cases mtu <;> cases ara <;> cases rts <;>
    simp [generate_private_network_interface, get_interface_name, truthyName,
      hres, hnm, setHeadRoutes]

lemma generate_public_unresolved (resolve : String → Option String)
    (i : InterfaceMeta) (h : truthyName (resolve i.mac) = false) :
    generate_public_network_interface resolve i =
      .error (unresolvedInterfaceError i.mac) := by
  simp only [generate_public_network_interface, get_interface_name, h]
  simp

lemma generate_private_unresolved (resolve : String → Option String)
    (i : InterfaceMeta) (h : truthyName (resolve i.mac) = false) :
    generate_private_network_interface resolve i =
      .error (unresolvedInterfaceError i.mac) := by
  simp only [generate_private_network_interface, get_interface_name, h]
  simp

lemma wellFormed_elim (i : InterfaceMeta) (h : wellFormed i = true) :
    ∃ b addr mask v4 c v6, i.ipv4 = some b ∧ b.address = some addr ∧
      b.netmask = some mask ∧ b.additional = some v4 ∧
      i.ipv6 = some c ∧ c.additional = some v6 := by
  rcases i with ⟨mac, mtu, ara, rts, i4, i6⟩
  cases i4 with
  | none => simp [wellFormed] at h
  | some b =>
    rcases b with ⟨baddr, bmask, badd⟩
    cases i6 with
    | none => simp [wellFormed] at h
    | some c =>
      rcases c with ⟨cadd⟩
      cases baddr with
      | none => simp [wellFormed] at h
      | some a =>
        cases bmask with
        | none => simp [wellFormed] at h
        | some m =>
          cases badd with
          | none => simp [wellFormed] at h
          | some l1 =>
            cases cadd with
            | none => simp [wellFormed] at h
            | some l2 =>
              exact ⟨_, _, _, _, _, _, rfl, rfl, rfl, rfl, rfl, rfl⟩

lemma mapM_private_ok (resolve : String → Option String)
    (l : List InterfaceMeta)
    (hwf : ∀ i ∈ l, wellFormed i = true)
    (hres : ∀ i ∈ l, truthyName (resolve i.mac) = true) :
    ∃ privs, l.mapM (generate_private_network_interface resolve) = .ok privs ∧
      privs.length = l.length := by
  induction l with
  | nil => exact ⟨[], rfl, rfl⟩
  | cons i t ih =>
    obtain ⟨b, addr, mask, v4, c, v6, h4, ha, hm, _, _, _⟩ :=
      wellFormed_elim i (hwf i (by simp))
    obtain ⟨nm, hnm, hne⟩ := (truthyName_iff _).mp (hres i (by simp))
    obtain ⟨privs, hprivs, hlen⟩ :=
      ih (fun j hj => hwf j (by simp [hj])) (fun j hj => hres j (by simp [hj]))
    have hmain : (i :: t).mapM (generate_private_network_interface resolve) =
        .ok ({ name := nm, mac_address := i.mac, accept_ra := i.accept_ra,
               mtu := i.mtu,
               subnets :=
                 [{ type := "static", control := "auto",
                    address := some addr, netmask := some mask,
                    routes := i.routes }] } :: privs) := by
      rw [List.mapM_cons, generate_private_ok_of resolve i nm b addr mask
        hnm hne h4 ha hm, hprivs]
      rfl
    exact ⟨_, hmain, by simp [hlen]⟩

lemma mapM_private_err (resolve : String → Option String)
    (l : List InterfaceMeta)
    (hwf : ∀ i ∈ l, wellFormed i = true)
    (hbad : ∃ i ∈ l, truthyName (resolve i.mac) = false) :
    ∃ m, (∃ i ∈ l, i.mac = m ∧ truthyName (resolve m) = false) ∧
      l.mapM (generate_private_network_interface resolve) =
        .error (unresolvedInterfaceError m) := by
  induction l with
  | nil => simp at hbad
  | cons i t ih =>
    by_cases hi : truthyName (resolve i.mac) = false
    · refine ⟨i.mac, ⟨i, by simp, rfl, hi⟩, ?_⟩
      rw [List.mapM_cons, generate_private_unresolved resolve i hi]
      rfl
    · have hi' : truthyName (resolve i.mac) = true := by
        cases h : truthyName (resolve i.mac)
        · exact absurd h hi
        · rfl
      obtain ⟨j, hj, hjf⟩ := hbad
      have hjt : j ∈ t := by
        rcases List.mem_cons.mp hj with rfl | h
        · rw [hi'] at hjf; cases hjf
        · exact h
      obtain ⟨b, addr, mask, v4, c, v6, h4, ha, hm, _, _, _⟩ :=
        wellFormed_elim i (hwf i (by simp))
      obtain ⟨nm, hnm, hne⟩ := (truthyName_iff _).mp hi'
      obtain ⟨m, ⟨k, hk, hkm, hkf⟩, herr⟩ :=
        ih (fun r hr => hwf r (by simp [hr])) ⟨j, hjt, hjf⟩
      refine ⟨m, ⟨k, by simp [hk], hkm, hkf⟩, ?_⟩
      rw [List.mapM_cons, generate_private_ok_of resolve i nm b addr mask
        hnm hne h4 ha hm, herr]
      rfl

lemma get_metadata_loop_skip_pre (pre : List (String × Attempt)) :
    (∀ q ∈ pre, skippedIface q.1 = true ∨ ∃ e, q.2 = Attempt.recoverable e) →
    ∀ (l : List (String × Attempt)) (exc : PyErr),
      ∃ exc2, get_metadata_loop exc (pre ++ l) = get_metadata_loop exc2 l := by
  induction pre with
  | nil => exact fun _ l exc => ⟨exc, rfl⟩
  | cons q t ih =>
    intro hpre l exc
    obtain ⟨n, a⟩ := q
    by_cases hs : skippedIface n = true
    · rcases ih (fun r hr => hpre r (by simp [hr])) l exc with ⟨exc2, h2⟩
      exact ⟨exc2, by simpa [get_metadata_loop, hs] using h2⟩
    · have hs' : skippedIface n = false := by
        cases h : skippedIface n
        · rfl
        · exact absurd h hs
      rcases hpre (n, a) (by simp) with hskip | ⟨e, he⟩
      · exact absurd hskip hs
      · subst he
        rcases ih (fun r hr => hpre r (by simp [hr])) l e with ⟨exc2, h2⟩
        exact ⟨exc2, by simpa [get_metadata_loop, hs'] using h2⟩

lemma get_metadata_loop_all_skipped (l : List (String × Attempt)) :
    (∀ q ∈ l, skippedIface q.1 = true) →
    ∀ exc, get_metadata_loop exc l = .error exc := by
  induction l with
  | nil => exact fun _ _ => rfl
  | cons q t ih =>
    intro h exc
    obtain ⟨n, a⟩ := q
    have hn := h (n, a) (by simp)
    simp only [get_metadata_loop, hn, if_true]
    exact ih (fun r hr => h r (by simp [hr])) exc

/-- Concrete MAC-to-name map used by the concrete instantiations below. -/
def wResolve : String → Option String := fun m =>
  if m = "56:00:00:00:00:01" then some "eth0"
  else if m = "56:00:00:00:00:02" then some "eth1"
  else none

/-- A well-formed public interface record. -/
def wPub : InterfaceMeta :=
  { mac := "56:00:00:00:00:01", mtu := some 1500, accept_ra := none,
    routes := none,
    ipv4 := some { address := some "203.0.113.5",
                   netmask := some "255.255.255.0", additional := some [] },
    ipv6 := some { additional := some [] } }

/-- A well-formed private interface record. -/
def wPriv : InterfaceMeta :=
  { mac := "56:00:00:00:00:02", mtu := none, accept_ra := none,
    routes := none,
    ipv4 := some { address := some "10.1.0.5", netmask := some "255.255.0.0",
                   additional := some [] },
    ipv6 := some { additional := some [] } }

/-- A well-formed record whose MAC is absent from `wResolve`. -/
def wBad : InterfaceMeta :=
  { mac := "56:00:00:00:00:03", mtu := none, accept_ra := none,
    routes := none,
    ipv4 := some { address := some "10.2.0.5", netmask := some "255.255.0.0",
                   additional := some [] },
    ipv6 := some { additional := some [] } }

/-- C1: for every interface-metadata list (shaped per the data model) whose
MACs all resolve, `generate_network_config` returns a version-1 document
whose config is the nameserver stanza, then (when non-empty) one public
stanza for element 0, then one private stanza per element at index ≥ 1, in
order; for the empty list exactly the nameserver stanza. -/
theorem generate_network_config_stanza_order
    (resolve : String → Option String) (interfaces : List InterfaceMeta)
    (hwf : ∀ i ∈ interfaces, wellFormed i = true)
    (hres : ∀ i ∈ interfaces, truthyName (resolve i.mac) = true) :
    (interfaces = [] →
      generate_network_config resolve interfaces =
        .ok { version := 1, config := [.nameserver ["108.61.10.10"]] }) ∧
    (∀ first rest, interfaces = first :: rest →
      ∃ pub privs,
        generate_public_network_interface resolve first = .ok pub ∧
        rest.mapM (generate_private_network_interface resolve) = .ok privs ∧
        privs.length = rest.length ∧
        generate_network_config resolve interfaces =
          .ok { version := 1,
                config := .nameserver ["108.61.10.10"] :: .physical pub ::
                  privs.map .physical }) := by
  constructor
  · rintro rfl
    rfl
  · rintro first rest rfl
    obtain ⟨b, addr, mask, v4, c, v6, h4, ha, hm, h4a, h6, h6a⟩ :=
      wellFormed_elim first (hwf first (by simp))
    obtain ⟨nm, hnm, hne⟩ := (truthyName_iff _).mp (hres first (by simp))
    have hpub := generate_public_ok_of resolve first nm b v4 c v6
      hnm hne h4 h4a h6 h6a
    obtain ⟨privs, hprivs, hlen⟩ := mapM_private_ok resolve rest
      (fun j hj => hwf j (by simp [hj])) (fun j hj => hres j (by simp [hj]))
    refine ⟨_, privs, hpub, hprivs, hlen, ?_⟩
    simp only [generate_network_config, hpub, hprivs]

/-- Witness for C1 at a concrete two-element list. -/
theorem generate_network_config_stanza_order_witness :
    ∃ pub privs,
      generate_public_network_interface wResolve wPub = .ok pub ∧
      [wPriv].mapM (generate_private_network_interface wResolve) =
        .ok privs ∧
      privs.length = [wPriv].length ∧
      generate_network_config wResolve [wPub, wPriv] =
        .ok { version := 1,
              config := .nameserver ["108.61.10.10"] :: .physical pub ::
                privs.map .physical } :=
  (generate_network_config_stanza_order wResolve [wPub, wPriv]
    (by decide) (by decide)).2 wPub [wPriv] rfl

/-- C2: a list (shaped per the data model) containing an interface whose
MAC does not resolve makes synthesis return the unresolved-interface error
naming an offending MAC, and no document at all. -/
theorem generate_network_config_unresolved_aborts
    (resolve : String → Option String) (interfaces : List InterfaceMeta)
    (hwf : ∀ i ∈ interfaces, wellFormed i = true)
    (hbad : ∃ i ∈ interfaces, truthyName (resolve i.mac) = false) :
    ∃ m, (∃ i ∈ interfaces, i.mac = m ∧ truthyName (resolve m) = false) ∧
      generate_network_config resolve interfaces =
        .error (unresolvedInterfaceError m) := by
  cases interfaces with
  | nil => simp at hbad
  | cons first rest =>
    by_cases hf : truthyName (resolve first.mac) = false
    · refine ⟨first.mac, ⟨first, by simp, rfl, hf⟩, ?_⟩
      simp only [generate_network_config,
        generate_public_unresolved resolve first hf]
    · have hf' : truthyName (resolve first.mac) = true := by
        cases h : truthyName (resolve first.mac)
        · exact absurd h hf
        · rfl
      obtain ⟨j, hj, hjf⟩ := hbad
      have hjt : j ∈ rest := by
        rcases List.mem_cons.mp hj with rfl | h
        · rw [hf'] at hjf; cases hjf
        · exact h
      obtain ⟨b, addr, mask, v4, c, v6, h4, ha, hm, h4a, h6, h6a⟩ :=
        wellFormed_elim first (hwf first (by simp))
      obtain ⟨nm, hnm, hne⟩ := (truthyName_iff _).mp hf'
      have hpub := generate_public_ok_of resolve first nm b v4 c v6
        hnm hne h4 h4a h6 h6a
      obtain ⟨m, ⟨k, hk, hkm, hkf⟩, herr⟩ := mapM_private_err resolve rest
        (fun r hr => hwf r (by simp [hr])) ⟨j, hjt, hjf⟩
      refine ⟨m, ⟨k, by simp [hk], hkm, hkf⟩, ?_⟩
      simp only [generate_network_config, hpub, herr]

/-- Witness for C2: a resolvable public interface followed by an
unresolvable private one. -/
theorem generate_network_config_unresolved_aborts_witness :
    ∃ m, (∃ i ∈ [wPub, wBad], i.mac = m ∧ truthyName (wResolve m) = false) ∧
      generate_network_config wResolve [wPub, wBad] =
        .error (unresolvedInterfaceError m) :=
  generate_network_config_unresolved_aborts wResolve [wPub, wBad]
    (by decide) ⟨wBad, by decide⟩

/-- C3: a resolvable public record with `ipv4.additional` and
`ipv6.additional` yields a physical stanza whose subnets are dhcp,
ipv6_slaac, then one static subnet per `ipv4.additional` entry and one
static6 subnet per `ipv6.additional` entry; accept-ra defaults to 1 unless
the record carries one, mtu is copied iff present, and primary routes are
attached to the first (dhcp) subnet iff present. -/
theorem generate_public_network_interface_shape
    (resolve : String → Option String) (i : InterfaceMeta) (nm : String)
    (b : IPv4Block) (v4 : List AdditionalEntry) (c : IPv6Block)
    (v6 : List AdditionalEntry)
    (hres : resolve i.mac = some nm) (hnm : nm ≠ "")
    (h4 : i.ipv4 = some b) (h4a : b.additional = some v4)
    (h6 : i.ipv6 = some c) (h6a : c.additional = some v6) :
    generate_public_network_interface resolve i =
      .ok { name := nm, mac_address := i.mac,
            accept_ra := some (i.accept_ra.getD 1), mtu := i.mtu,
            subnets :=
              { type := "dhcp", control := "auto", address := none,
                netmask := none, routes := i.routes } ::
              { type := "ipv6_slaac", control := "auto", address := none,
                netmask := none, routes := none } ::
              (v4.map (additionalSubnet "static") ++
                v6.map (additionalSubnet "static6")) } :=
  generate_public_ok_of resolve i nm b v4 c v6 hres hnm h4 h4a h6 h6a

/-- The resolver of the spec's worked example: AA maps to eth0. -/
def exResolve : String → Option String := fun m =>
  if m = "AA" then some "eth0" else none

/-- The spec's worked public example:
`{mac:"AA", ipv4:{additional:[{address:"1.2.3.4",
netmask:"255.255.255.0"}]}, ipv6:{additional:[]}}`. -/
def exPublic : InterfaceMeta :=
  { mac := "AA", mtu := none, accept_ra := none, routes := none,
    ipv4 := some { address := none, netmask := none,
                   additional := some [{ address := "1.2.3.4",
                                         netmask := "255.255.255.0",
                                         routes := none }] },
    ipv6 := some { additional := some [] } }

/-- Witness for C3 at the spec's worked example: the subnets are
`[dhcp, ipv6_slaac, static(1.2.3.4/255.255.255.0)]`. -/
theorem generate_public_network_interface_shape_witness :
    generate_public_network_interface exResolve exPublic =
      .ok { name := "eth0", mac_address := "AA", accept_ra := some 1,
            mtu := none,
            subnets :=
              [{ type := "dhcp", control := "auto", address := none,
                 netmask := none, routes := none },
               { type := "ipv6_slaac", control := "auto", address := none,
                 netmask := none, routes := none },
               { type := "static", control := "auto",
                 address := some "1.2.3.4",
                 netmask := some "255.255.255.0", routes := none }] } := by
  have h := generate_public_network_interface_shape exResolve exPublic
    "eth0"
    { address := none, netmask := none,
      additional := some [{ address := "1.2.3.4",
                            netmask := "255.255.255.0", routes := none }] }
    [{ address := "1.2.3.4", netmask := "255.255.255.0", routes := none }]
    { additional := some [] } []
    (by decide) (by decide) rfl rfl rfl rfl
  exact h

/-- C10: a public record with resolvable MAC but missing `ipv4`, missing
`ipv6`, or missing an `additional` sub-key fails with a `KeyError`: the
`len(interface["ipv4"]["additional"])` lookup runs before the
`"ipv4" in interface` guard, so both `additional` lists are mandatory. -/
theorem generate_public_missing_keys_error
    (resolve : String → Option String) (i : InterfaceMeta) (nm : String)
    (hres : resolve i.mac = some nm) (hnm : nm ≠ "")
    (hmiss : i.ipv4 = none ∨ (∃ b, i.ipv4 = some b ∧ b.additional = none) ∨
      i.ipv6 = none ∨ (∃ c, i.ipv6 = some c ∧ c.additional = none)) :
    ∃ k, generate_public_network_interface resolve i =
      .error (.keyError k) := by
  rcases i with ⟨mac, mtu, ara, rts, i4, i6⟩
  simp only at hres hmiss
  cases i4 with
  | none =>
    exact ⟨"ipv4", by simp [generate_public_network_interface,
      get_interface_name, truthyName, hres, hnm]⟩
  | some b =>
    rcases b with ⟨baddr, bmask, badd⟩
    cases badd with
    | none =>
      exact ⟨"additional", by simp [generate_public_network_interface,
        get_interface_name, truthyName, hres, hnm]⟩
    | some v4 =>
      cases i6 with
      | none =>
        exact ⟨"ipv6", by simp [generate_public_network_interface,
          get_interface_name, truthyName, hres, hnm]⟩
      | some c =>
        rcases c with ⟨cadd⟩
        cases cadd with
        | none =>
          exact ⟨"additional", by simp [generate_public_network_interface,
            get_interface_name, truthyName, hres, hnm]⟩
        | some v6 =>
          rcases hmiss with h | ⟨b', hb', hb2⟩ | h | ⟨c', hc', hc2⟩
          · cases h
          · obtain rfl := (Option.some_inj.mp hb').symm; simp at hb2
          · cases h
          · obtain rfl := (Option.some_inj.mp hc').symm; simp at hc2

/-- A record with resolvable MAC but no `ipv4` key at all. -/
def wNoV4 : InterfaceMeta :=
  { mac := "56:00:00:00:00:01", mtu := none, accept_ra := none,
    routes := none, ipv4 := none, ipv6 := some { additional := some [] } }

/-- Witness for C10 at a record lacking the `ipv4` key. -/
theorem generate_public_missing_keys_error_witness :
    ∃ k, generate_public_network_interface wResolve wNoV4 =
      .error (.keyError k) :=
  generate_public_missing_keys_error wResolve wNoV4 "eth0"
    (by decide) (by decide) (Or.inl rfl)

/-- C4 (code bug): on every non-success final response, `read_metadata`
does not raise an error carrying the URL and status code; it raises the
`TypeError` from evaluating the two-placeholder format string
`"Failed to connect to %s: Code: %s" % url` with the single argument
`url`, an error that carries neither the URL nor the status code. -/
theorem read_metadata_nonsuccess_typeerror (url : String) (code : Nat)
    (contents : String) :
    read_metadata url { ok := false, code := code, contents := contents } =
      .error (.typeError "not enough arguments for format string") :=
  rfl

/-- C5 (amended): `set_route` issues at most one command, always an add of
the host route `169.254.169.254/32`, and issues one exactly when the route
table was obtained, a NAT-gateway destination is present, the metadata
destination is absent, and one of the two routing tools is available. -/
theorem set_route_spec (env : RouteEnv) (iface : String) :
    (set_route env iface = [] ∨
      set_route env iface =
        [RouteCmd.ipRouteAdd "169.254.169.254/32" iface] ∨
      set_route env iface =
        [RouteCmd.routeAdd "169.254.169.254/32" "100.64.0.1"]) ∧
    (set_route env iface ≠ [] ↔
      ∃ routes, env.ipv4 = some routes ∧
        (∃ r ∈ routes, r.destination = "100.64.0.0" ∨
          r.destination = "100.64.0.0/10") ∧
        (∀ r ∈ routes, r.destination ≠ "169.254.169.254") ∧
        (env.has_ip = true ∨ env.has_route = true)) := by
  rcases env with ⟨i4, hip, hrt⟩
  cases i4 with
  | none => simp [set_route]
  | some routes =>
    simp only [set_route]
    rcases hc1 : (routes.map fun r => r.destination).contains "100.64.0.0"
      with _ | _ <;>
    rcases hc2 : (routes.map fun r => r.destination).contains "100.64.0.0/10"
      with _ | _ <;>
    rcases hc3 : (routes.map fun r => r.destination).contains
      "169.254.169.254" with _ | _ <;>
    cases hip <;> cases hrt <;>
      simp_all [List.mem_map] <;> aesop

/-- Counterexample to C5 as stated: a route table whose only destination
is the NAT-gateway block, with no metadata route present, yet no add-route
call is issued because neither routing tool is available. -/
theorem set_route_no_tool_counterexample :
    (RouteEnv.mk (some [{ destination := "100.64.0.0/10" }]) false
        false).ipv4 = some [{ destination := "100.64.0.0/10" }] ∧
    (∃ r ∈ [Route4.mk "100.64.0.0/10"],
      r.destination = "100.64.0.0" ∨ r.destination = "100.64.0.0/10") ∧
    (∀ r ∈ [Route4.mk "100.64.0.0/10"],
      r.destination ≠ "169.254.169.254") ∧
    set_route
      (RouteEnv.mk (some [{ destination := "100.64.0.0/10" }]) false false)
      "eth0" = [] := by
  decide

/-- C8: `is_vultr` is true exactly when the DMI manufacturer string equals
`"Vultr"`, or `"vultr"` is one of the whitespace-delimited words of the
kernel command line; otherwise false. -/
theorem is_vultr_iff (m : Option String) (c : String) :
    is_vultr m c = true ↔ m = some "Vultr" ∨ "vultr" ∈ pySplitWs c := by
  unfold is_vultr
  by_cases hm : m = some "Vultr"
  · simp [hm]
  · have hm' : (m == some "Vultr") = false := by
      simp [hm]
    simp [hm', hm]

/-- C9: a second call of the cached orchestrator with the identical
parameter tuple, after a first call that returned a document, returns the
same memoized document and leaves the cache state (including the count of
underlying DHCP-plus-fetch executions) unchanged. -/
theorem get_metadata_cached_memoized (attempts : List (String × Attempt))
    (p : Params) (st : CacheSt) (v : String) (st2 : CacheSt)
    (h : get_metadata_cached attempts p st = (.ok v, st2)) :
    get_metadata_cached attempts p st2 = (.ok v, st2) := by
  unfold get_metadata_cached at h ⊢
  cases hl : st.cache.lookup p with
  | some w =>
    rw [hl] at h
    obtain ⟨h1, h2⟩ := Prod.mk.injEq .. ▸ h
    obtain rfl := h2
    rw [hl]
    obtain rfl : v = w := by
      cases h1
      rfl
    rfl
  | none =>
    rw [hl] at h
    cases hg : get_metadata attempts with
    | ok w =>
      rw [hg] at h
      obtain ⟨h1, h2⟩ := Prod.mk.injEq .. ▸ h
      obtain rfl : v = w := by
        cases h1
        rfl
      subst h2
      simp [List.lookup]
    | error e =>
      rw [hg] at h
      cases h

/-- Witness for C9: two consecutive calls from the empty cache. -/
theorem get_metadata_cached_memoized_witness :
    get_metadata_cached [("eth0", Attempt.success "{}")]
      ("http://169.254.169.254", 10, 2, 2, "agent")
      { cache := [(("http://169.254.169.254", 10, 2, 2, "agent"), "{}")],
        count := 1 } =
      (.ok "{}",
        { cache := [(("http://169.254.169.254", 10, 2, 2, "agent"), "{}")],
          count := 1 }) :=
  get_metadata_cached_memoized [("eth0", Attempt.success "{}")]
    ("http://169.254.169.254", 10, 2, 2, "agent")
    { cache := [], count := 0 } "{}"
    { cache := [(("http://169.254.169.254", 10, 2, 2, "agent"), "{}")],
      count := 1 }
    rfl

/-- C6 (amended): interfaces named exactly `lo` or containing `dummy` are
skipped; the remaining interfaces are tried in enumeration order; as long
as every earlier non-skipped attempt failed with one of the two caught
error classes, the first non-skipped interface whose attempt succeeds has
its parsed document returned (no further interfaces tried) — but an
uncaught per-interface error (e.g. a fetch failure) aborts the whole
acquisition with that error instead of moving on. -/
theorem get_metadata_first_success (pre : List (String × Attempt))
    (name doc : String) (rest : List (String × Attempt))
    (hpre : ∀ q ∈ pre, skippedIface q.1 = true ∨
      ∃ e, q.2 = Attempt.recoverable e)
    (hname : skippedIface name = false) :
    get_metadata (pre ++ (name, Attempt.success doc) :: rest) = .ok doc ∧
    ∀ e, get_metadata (pre ++ (name, Attempt.fatal e) :: rest) =
      .error e := by
  constructor
  · obtain ⟨exc2, h2⟩ := get_metadata_loop_skip_pre pre hpre
      ((name, Attempt.success doc) :: rest) (.runtimeError "Failed to DHCP")
    unfold get_metadata
    rw [h2]
    simp [get_metadata_loop, hname]
  · intro e
    obtain ⟨exc2, h2⟩ := get_metadata_loop_skip_pre pre hpre
      ((name, Attempt.fatal e) :: rest) (.runtimeError "Failed to DHCP")
    unfold get_metadata
    rw [h2]
    simp [get_metadata_loop, hname]

/-- Witness for C6 (amended): `dummy0` and `lo` are skipped, `enp1s0`
fails with a caught DHCP error, `enp2s0` succeeds and its document is
returned; with a fatal error at `enp1s0` instead, that error propagates. -/
theorem get_metadata_first_success_witness :
    get_metadata
      [("dummy0", Attempt.success "skipped"), ("lo", Attempt.success "lo"),
       ("enp1s0", Attempt.recoverable (.noDHCPLease "no lease")),
       ("enp2s0", Attempt.success "{}")] = .ok "{}" ∧
    ∀ e, get_metadata
      [("dummy0", Attempt.success "skipped"), ("lo", Attempt.success "lo"),
       ("enp1s0", Attempt.recoverable (.noDHCPLease "no lease")),
       ("enp2s0", Attempt.fatal e)] = .error e :=
  get_metadata_first_success
    [("dummy0", Attempt.success "skipped"), ("lo", Attempt.success "lo"),
     ("enp1s0", Attempt.recoverable (.noDHCPLease "no lease"))]
    "enp2s0" "{}" []
    (by
      intro q hq
      simp only [List.mem_cons, List.not_mem_nil, or_false] at hq
      rcases hq with rfl | rfl | rfl
      · exact Or.inl (by decide)
      · exact Or.inl (by decide)
      · exact Or.inr ⟨_, rfl⟩)
    (by decide)

/-- Counterexample to C6 as stated: `iface1` is not skipped and its lease
and route setup would succeed but its fetch raises; `iface2` is the first
interface at which lease, route setup and fetch all succeed, yet the
orchestrator returns the propagated fetch error, not `iface2`'s parsed
document. -/
theorem get_metadata_fatal_counterexample :
    skippedIface "iface1" = false ∧ skippedIface "iface2" = false ∧
    get_metadata
      [("iface1",
        Attempt.fatal (.typeError "not enough arguments for format string")),
       ("iface2", Attempt.success "{}")] =
      .error (.typeError "not enough arguments for format string") ∧
    get_metadata
      [("iface1",
        Attempt.fatal (.typeError "not enough arguments for format string")),
       ("iface2", Attempt.success "{}")] ≠ .ok "{}" :=
  ⟨rfl, rfl, rfl, fun h => Except.noConfusion h⟩

/-- C7: when every enumerated interface is skipped or fails with a caught
error, the orchestrator raises the error of the last non-skipped attempt;
when every enumerated interface is skipped (or there are none), it raises
the generic `"Failed to DHCP"` error. -/
theorem get_metadata_exhausted_last_error
    (attempts : List (String × Attempt))
    (hall : ∀ q ∈ attempts, skippedIface q.1 = true ∨
      ∃ e, q.2 = Attempt.recoverable e) :
    ((∀ q ∈ attempts, skippedIface q.1 = true) →
      get_metadata attempts = .error (.runtimeError "Failed to DHCP")) ∧
    (∀ pre name e post,
      attempts = pre ++ (name, Attempt.recoverable e) :: post →
      skippedIface name = false →
      (∀ q ∈ post, skippedIface q.1 = true) →
      get_metadata attempts = .error e) := by
  constructor
  · intro hskip
    exact get_metadata_loop_all_skipped attempts hskip _
  · rintro pre name e post rfl hname hpost
    have hpre : ∀ q ∈ pre, skippedIface q.1 = true ∨
        ∃ e2, q.2 = Attempt.recoverable e2 :=
      fun q hq => hall q (by simp [hq])
    obtain ⟨exc2, h2⟩ := get_metadata_loop_skip_pre pre hpre
      ((name, Attempt.recoverable e) :: post) (.runtimeError "Failed to DHCP")
    unfold get_metadata
    rw [h2]
    simp only [get_metadata_loop, hname, if_false, Bool.false_eq_true]
    exact get_metadata_loop_all_skipped post hpost e

/-- Witness for C7: both conjuncts applied at concrete interface lists. -/
theorem get_metadata_exhausted_last_error_witness :
    get_metadata [("lo", Attempt.success "lo"),
      ("dummy0", Attempt.success "d")] =
      .error (.runtimeError "Failed to DHCP") ∧
    get_metadata
      [("dummy0", Attempt.success "d"),
       ("enp1s0", Attempt.recoverable (.noDHCPLease "no lease on enp1s0")),
       ("enp2s0", Attempt.recoverable (.processExecution "route failed")),
       ("dummy1", Attempt.success "d")] =
      .error (.processExecution "route failed") :=
  ⟨(get_metadata_exhausted_last_error
      [("lo", Attempt.success "lo"), ("dummy0", Attempt.success "d")]
      (by
        intro q hq
        simp only [List.mem_cons, List.not_mem_nil, or_false] at hq
        rcases hq with rfl | rfl
        · exact Or.inl (by decide)
        · exact Or.inl (by decide))).1 (by decide),
   (get_metadata_exhausted_last_error
      [("dummy0", Attempt.success "d"),
       ("enp1s0", Attempt.recoverable (.noDHCPLease "no lease on enp1s0")),
       ("enp2s0", Attempt.recoverable (.processExecution "route failed")),
       ("dummy1", Attempt.success "d")]
      (by
        intro q hq
        simp only [List.mem_cons, List.not_mem_nil, or_false] at hq
        rcases hq with rfl | rfl | rfl | rfl
        · exact Or.inl (by decide)
        · exact Or.inr ⟨_, rfl⟩
        · exact Or.inr ⟨_, rfl⟩
        · exact Or.inl (by decide))).2
     [("dummy0", Attempt.success "d"),
      ("enp1s0", Attempt.recoverable (.noDHCPLease "no lease on enp1s0"))]
     "enp2s0" (.processExecution "route failed")
     [("dummy1", Attempt.success "d")] rfl (by decide) (by decide)⟩

end VultrHelper
